import Mathlib

/-!
Shallow embedding of `me_geolocate.go` (package `me_geolocate`).

The core of the repository is the lookup pipeline `GetGeoData`:
octet completion (`CheckOctets`), classification (`isLocal`,
`isNonRoutable`), the Redis cache-aside protocol (`checkRedisCache`,
`add2RedisCache`) and the remote resolver (`obtainGeoDat`).

External effects are modelled explicitly:
  * the Redis store is a total map `Cache : String → GetResult`, whose
    result distinguishes a missing key (`redis.Nil`), another retrieval
    error, and a stored value; a stored value either unmarshals
    (`CacheVal.good`, carrying the JSON fields) or fails to unmarshal
    (`CacheVal.bad`);
  * JSON marshal/unmarshal of `GeoIPData` is modelled field by field over
    the JSON tags of the struct, with the merge-into-existing-value
    unmarshal semantics of `encoding/json`;
  * the HTTP world is an oracle `Remote : String → HttpResult` keyed by the
    IP the request URL is built from; gzip decompression is transparent to
    the record fields and is modelled as already applied to the body;
  * logging (`LogGeo`, `logger.*`) has no effect on the record or the cache
    and is omitted.
-/

namespace MeGeolocate

/-- Embeds Go `strings.HasPrefix` on the underlying character lists. -/
def charsStartsWith : List Char → List Char → Bool
  | [], _ => true
  | _ :: _, [] => false
  | p :: ps, s :: ss => p = s && charsStartsWith ps ss

/-- Go `strings.HasPrefix s p`. -/
def strStartsWith (s p : String) : Bool := charsStartsWith p.data s.data

/-- Embeds Go `strings.Split s "."` on the underlying character list:
split at every occurrence of the separator, keeping empty fields. -/
def splitChars : List Char → List (List Char)
  | [] => [[]]
  | c :: cs =>
    if c = '.' then [] :: splitChars cs
    else
      match splitChars cs with
      | [] => [[c]]
      | f :: r => (c :: f) :: r

/-- Go `strings.Split s "."`. -/
def splitOnDot (s : String) : List String := (splitChars s.data).map String.mk

/-- Number of occurrences of the dot separator. -/
def countDots : List Char → Nat
  | [] => 0
  | c :: cs => (if c = '.' then 1 else 0) + countDots cs

/-- The `GeoIPData` struct of `me_geolocate.go`. -/
structure GeoIPData where
  IP          : String
  ISP         : String
  Org         : String
  Hostname    : String
  City        : String
  CountryCode : String
  CountryName : String
  Success     : Bool
  Error       : String
  Located     : Bool
  Routable    : Bool
  Block       : Bool
  CacheHit    : Bool
deriving DecidableEq

/-- A JSON field value of the marshaled struct: every `GeoIPData` field is
either a string or a bool. -/
inductive JVal where
  | s (v : String)
  | b (v : Bool)
deriving DecidableEq

/-- Go `json.Marshal` of `GeoIPData`: one field per struct field, in struct
order, under the JSON tags of the struct. -/
def marshal (g : GeoIPData) : List (String × JVal) :=
  [("ip", .s g.IP), ("isp", .s g.ISP), ("org", .s g.Org),
   ("hostname", .s g.Hostname), ("city", .s g.City),
   ("country_code", .s g.CountryCode), ("country_name", .s g.CountryName),
   ("success", .b g.Success), ("error", .s g.Error),
   ("located", .b g.Located), ("routable", .b g.Routable),
   ("block", .b g.Block), ("cache_hit", .b g.CacheHit)]

/-- One step of `json.Unmarshal` into an existing `GeoIPData`: a recognised
tag with a value of the right shape overwrites that field; anything else is
ignored (Go ignores unknown fields; values marshaled by this package always
have the right shape). -/
def setField (g : GeoIPData) : String × JVal → GeoIPData
  | ("ip", .s v) => { g with IP := v }
  | ("isp", .s v) => { g with ISP := v }
  | ("org", .s v) => { g with Org := v }
  | ("hostname", .s v) => { g with Hostname := v }
  | ("city", .s v) => { g with City := v }
  | ("country_code", .s v) => { g with CountryCode := v }
  | ("country_name", .s v) => { g with CountryName := v }
  | ("success", .b v) => { g with Success := v }
  | ("error", .s v) => { g with Error := v }
  | ("located", .b v) => { g with Located := v }
  | ("routable", .b v) => { g with Routable := v }
  | ("block", .b v) => { g with Block := v }
  | ("cache_hit", .b v) => { g with CacheHit := v }
  | _ => g

/-- Go `json.Unmarshal` of a well-formed body into an existing value:
fields present in the JSON overwrite, fields absent keep their value. -/
def unmarshal (fs : List (String × JVal)) (g : GeoIPData) : GeoIPData :=
  fs.foldl setField g

/-- A value stored under a key: either a string that unmarshals into
`GeoIPData` (carrying its fields), or one that fails to unmarshal. -/
inductive CacheVal where
  | good (fs : List (String × JVal))
  | bad
deriving DecidableEq

/-- Result of `redisClient.Get(ctx, key).Result()`: key missing
(`redis.Nil`), some other retrieval error, or a stored value. -/
inductive GetResult where
  | nilErr
  | err
  | ok (v : CacheVal)
deriving DecidableEq

/-- The Redis store, as observed through `Get`. -/
def Cache := String → GetResult

/-- Effect of a successful `redisClient.Set` on subsequent `Get`s. -/
def cacheSet (c : Cache) (k : String) (v : CacheVal) : Cache :=
  fun q => if q = k then .ok v else c q

/-- Response body after transparent gzip decompression: either malformed
JSON or a well-formed field list. -/
inductive Body where
  | malformed
  | fields (fs : List (String × JVal))
deriving DecidableEq

/-- An HTTP response as far as `obtainGeoDat` observes it. -/
structure HttpResp where
  status : String
  readErrMsg : Option String
  body : Body
deriving DecidableEq

/-- Result of `http.DefaultClient.Do`: transport failure or a response. -/
inductive HttpResult where
  | transportErr
  | resp (r : HttpResp)
deriving DecidableEq

/-- The external geolocation service, keyed by the IP in the request URL. -/
def Remote := String → HttpResult

/-- `const ttl int = 129600` (90 days in minutes). -/
def ttl : Nat := 129600

/-- The struct literal at the top of `GetGeoData`; fields not listed there
(`Org`, `Success`, `Error`, `Block`) take Go zero values. -/
def initGeo (ip : String) : GeoIPData :=
  { IP := ip
    ISP := "-----"
    Org := ""
    Hostname := "-----"
    City := "-----"
    CountryCode := "--"
    CountryName := "-----"
    Success := false
    Error := ""
    Located := false
    Routable := false
    Block := false
    CacheHit := false }

/-- `func (g *GeoIPData) CheckOctets(o string)`: a three-octet IP is
extended with `o` as fourth octet; anything else is left unchanged. -/
def CheckOctets (g : GeoIPData) (o : String) : GeoIPData :=
  match splitOnDot g.IP with
  | [a, b, c] => { g with IP := a ++ "." ++ b ++ "." ++ c ++ "." ++ o }
  | _ => g

/-- `func (g *GeoIPData) isLocal() bool`: on the local prefix the fixed
home record is written into `g` and `true` returned; `Success` is not
touched. The `LogGeo` call inside is a pure side effect and is omitted. -/
def isLocal (g : GeoIPData) : GeoIPData × Bool :=
  if strStartsWith g.IP "192.168.106." then
    ({ g with
        Located := true
        Routable := false
        ISP := "LaughingJ"
        CountryCode := "US"
        City := "Lewisville"
        CountryName := "United States"
        CacheHit := false }, true)
  else (g, false)

/-- The `nonRoutable` prefix list of `isNonRoutable`. -/
def nonRoutable : List String :=
  ["192.168.", "10.",
   "172.16.", "172.17.", "172.18.", "172.19.",
   "172.20.", "172.21.", "172.22.", "172.23.",
   "172.24.", "172.25.", "172.26.", "172.27.",
   "172.28.", "172.29.", "172.30.", "172.31."]

/-- `func (g *GeoIPData) isNonRoutable() bool`: the loop returns at the
first matching prefix, writing the same fields whichever prefix matched; no
match sets `Routable = true` and returns `false`. -/
def isNonRoutable (g : GeoIPData) : GeoIPData × Bool :=
  if nonRoutable.any (fun v => strStartsWith g.IP v) then
    ({ g with
        Routable := false
        Located := false
        Success := false
        CacheHit := false
        Error := "Invalid public IPv4 or IPv6 address " ++ g.IP }, true)
  else ({ g with Routable := true }, false)

/-- `func (g *GeoIPData) checkRedisCache(redisClient, ip) bool`: a missing
key, any other retrieval error, and an unmarshal error all clear
`Located`/`CacheHit` and return `false`; on success the stored fields are
merged into `g`, then `Located` and `CacheHit` are set. -/
def checkRedisCache (g : GeoIPData) (cache : Cache) (ip : String) :
    GeoIPData × Bool :=
  match cache ip with
  | .nilErr => ({ g with Located := false, CacheHit := false }, false)
  | .err => ({ g with Located := false, CacheHit := false }, false)
  | .ok .bad => ({ g with Located := false, CacheHit := false }, false)
  | .ok (.good fs) =>
    ({ unmarshal fs g with Located := true, CacheHit := true }, true)

/-- `func (g *GeoIPData) add2RedisCache(redisClient, minutes)`: forces
`CacheHit = false` on `g`, marshals it, and stores it under key `g.IP`.
Marshal of this struct cannot fail; a `Set` error only logs, so the store
is modelled as succeeding. Returns the mutated record and the new store. -/
def add2RedisCache (g : GeoIPData) (cache : Cache) (_minutes : Nat) :
    GeoIPData × Cache :=
  let g' := { g with CacheHit := false }
  (g', cacheSet cache g'.IP (.good (marshal g')))

/-- `func (g *GeoIPData) obtainGeoDat() string`: on transport failure the
function logs and returns early, leaving `g` untouched (second component
`false`). Otherwise a non-200 status and a body-read error each write
`g.Error`; the body is unmarshaled with the error of `json.Unmarshal`
ignored, and `Located` is set unconditionally. The string the Go function
returns is unused by its caller and is dropped here. -/
def obtainGeoDat (g : GeoIPData) (remote : Remote) : GeoIPData × Bool :=
  match remote g.IP with
  | .transportErr => (g, false)
  | .resp r =>
    let g1 := if r.status ≠ "200 OK" then
        { g with Error := "GetGeoData received invalid response for IP: " ++
            g.IP ++ " - " ++ r.status }
      else g
    let g2 := match r.readErrMsg with
      | some m => { g1 with Error := "Reading response body failed - " ++ m }
      | none => g1
    let g3 := match r.body with
      | .malformed => g2
      | .fields fs => unmarshal fs g2
    ({ g3 with Located := true }, true)

/-- Observable outcome of one `GetGeoData` call: the returned record, the
Redis store afterwards, and which collaborators were consulted and under
which keys. -/
structure LookupOutcome where
  geo : GeoIPData
  cache : Cache
  cacheChecked : Bool
  remoteCalled : Bool
  cacheReadKey : Option String
  cacheWriteKey : Option String

/-- The shared tail of `GetGeoData`: `geo.obtainGeoDat()` then
`geo.add2RedisCache(redisClient, ttl)`. -/
def resolveRemote (g : GeoIPData) (cache : Cache) (remote : Remote)
    (checked : Bool) (readKey : Option String) : LookupOutcome :=
  let g1 := (obtainGeoDat g remote).1
  let gc := add2RedisCache g1 cache ttl
  { geo := gc.1
    cache := gc.2
    cacheChecked := checked
    remoteCalled := true
    cacheReadKey := readKey
    cacheWriteKey := some gc.1.IP }

/-- `func GetGeoData(ip string) GeoIPData`, with the ambient `redis_addr`,
Redis store and HTTP world passed explicitly. Note that the cache read
passes the original `ip` given by the caller, while the cache write inside
`add2RedisCache` keys on the (normalized) `IP` field of the record. -/
def GetGeoData (redis0 : String) (cache : Cache) (remote : Remote)
    (ip : String) : LookupOutcome :=
  let g1 := CheckOctets (initGeo ip) "112"
  let L := isLocal g1
  if L.2 then
    { geo := L.1
      cache := cache
      cacheChecked := false
      remoteCalled := false
      cacheReadKey := none
      cacheWriteKey := none }
  else
    let N := isNonRoutable L.1
    if N.2 then
      { geo := N.1
        cache := cache
        cacheChecked := false
        remoteCalled := false
        cacheReadKey := none
        cacheWriteKey := none }
    else
      if redis0 ≠ "" then
        let C := checkRedisCache N.1 cache ip
        if C.2 && (C.1.CountryCode != "--") then
          { geo := { C.1 with CacheHit := true }
            cache := cache
            cacheChecked := true
            remoteCalled := false
            cacheReadKey := some ip
            cacheWriteKey := none }
        else
          resolveRemote C.1 cache remote true (some ip)
      else
        resolveRemote N.1 cache remote false none

/-- The record state after octet completion and both classification checks
fall through, used to phrase hypotheses about the cache stage. -/
def classifyStage (ip : String) : GeoIPData :=
  (isNonRoutable ((isLocal (CheckOctets (initGeo ip) "112")).1)).1

/-- A Redis store with no keys. -/
def cacheEmpty : Cache := fun _ => .nilErr

/-- An HTTP world where every request fails at transport level. -/
def remoteNone : Remote := fun _ => .transportErr

/-- An HTTP world answering 200 with a malformed JSON body. -/
def remoteMalformed : Remote :=
  fun _ => .resp { status := "200 OK"
                   readErrMsg := none
                   body := .malformed }

/-- Descriptive fields of a well-formed remote answer, without the echoed
`ip` field. -/
def googleFields : List (String × JVal) :=
  [("isp", .s "Google LLC"), ("org", .s "Google LLC"),
   ("hostname", .s "dns.google"), ("city", .s "Mountain View"),
   ("country_code", .s "US"), ("country_name", .s "United States"),
   ("success", .b true)]

/-- An HTTP world answering 200 with a well-formed body that, like the real
service, echoes the queried address in its `ip` field. -/
def remoteGoogle : Remote :=
  fun ip => .resp { status := "200 OK"
                    readErrMsg := none
                    body := .fields (("ip", .s ip) :: googleFields) }

/-- A Redis store holding, at one key, a structurally valid record whose
country code is still the sentinel. -/
def cacheSentinel : Cache :=
  fun k => if k = "8.8.8.8" then .ok (.good (marshal (initGeo "8.8.8.8")))
           else .nilErr

/-- A prefix at the character level is an initial segment. -/
theorem charsStartsWith_append (p s : List Char)
    (h : charsStartsWith p s = true) : ∃ t, s = p ++ t := by
  induction p generalizing s with
  | nil => exact ⟨s, rfl⟩
  | cons a ps ih =>
    cases s with
    | nil => simp [charsStartsWith] at h
    | cons b bs =>
      simp only [charsStartsWith, Bool.and_eq_true, decide_eq_true_eq] at h
      obtain ⟨t, ht⟩ := ih bs h.2
      exact ⟨t, by simp [h.1, ht]⟩

/-- Dot counting distributes over append. -/
theorem countDots_append (p t : List Char) :
    countDots (p ++ t) = countDots p + countDots t := by
  induction p with
  | nil => simp [countDots]
  | cons c cs ih =>
    simp only [List.cons_append, countDots, List.append_eq]
    rw [ih]
    omega

/-- Splitting on dots yields one more field than there are dots. -/
theorem splitChars_length (cs : List Char) :
    (splitChars cs).length = countDots cs + 1 := by
  induction cs with
  | nil => rfl
  | cons c cs ih =>
    by_cases h : c = '.'
    · simp [splitChars, countDots, h, ih]
      omega
    · cases hs : splitChars cs with
      | nil =>
        rw [hs] at ih
        simp at ih
      | cons f r =>
        rw [hs] at ih
        simp only [splitChars, if_neg h, hs, List.length_cons, countDots,
          if_neg h] at ih ⊢
        omega

/-- `CheckOctets` leaves a record whose IP has at least three dots
unchanged. -/
theorem CheckOctets_of_dots (g : GeoIPData) (o : String)
    (h : 3 ≤ countDots g.IP.data) : CheckOctets g o = g := by
  unfold CheckOctets
  split
  · next a b c heq =>
    exfalso
    have hl : (splitOnDot g.IP).length = countDots g.IP.data + 1 := by
      simp [splitOnDot, splitChars_length]
    rw [heq] at hl
    simp at hl
    omega
  · rfl

/-- An address carrying the local prefix contains at least three dots. -/
theorem dots_of_local (ip : String)
    (h : strStartsWith ip "192.168.106." = true) : 3 ≤ countDots ip.data := by
  obtain ⟨t, ht⟩ := charsStartsWith_append _ _ h
  rw [ht, countDots_append]
  have h3 : countDots "192.168.106.".data = 3 := by decide
  omega

/-- Octet completion is the identity on addresses that already carry the
local prefix. -/
theorem CheckOctets_local (ip o : String)
    (h : strStartsWith ip "192.168.106." = true) :
    CheckOctets (initGeo ip) o = initGeo ip :=
  CheckOctets_of_dots _ _ (dots_of_local ip h)

@[simp] theorem CheckOctets_ISP (g : GeoIPData) (o : String) :
    (CheckOctets g o).ISP = g.ISP := by
  unfold CheckOctets
  split <;> rfl

@[simp] theorem CheckOctets_Org (g : GeoIPData) (o : String) :
    (CheckOctets g o).Org = g.Org := by
  unfold CheckOctets
  split <;> rfl

@[simp] theorem CheckOctets_Hostname (g : GeoIPData) (o : String) :
    (CheckOctets g o).Hostname = g.Hostname := by
  unfold CheckOctets
  split <;> rfl

@[simp] theorem CheckOctets_City (g : GeoIPData) (o : String) :
    (CheckOctets g o).City = g.City := by
  unfold CheckOctets
  split <;> rfl

@[simp] theorem CheckOctets_CountryCode (g : GeoIPData) (o : String) :
    (CheckOctets g o).CountryCode = g.CountryCode := by
  unfold CheckOctets
  split <;> rfl

@[simp] theorem CheckOctets_CountryName (g : GeoIPData) (o : String) :
    (CheckOctets g o).CountryName = g.CountryName := by
  unfold CheckOctets
  split <;> rfl

@[simp] theorem CheckOctets_Success (g : GeoIPData) (o : String) :
    (CheckOctets g o).Success = g.Success := by
  unfold CheckOctets
  split <;> rfl

@[simp] theorem CheckOctets_Error (g : GeoIPData) (o : String) :
    (CheckOctets g o).Error = g.Error := by
  unfold CheckOctets
  split <;> rfl

@[simp] theorem CheckOctets_Located (g : GeoIPData) (o : String) :
    (CheckOctets g o).Located = g.Located := by
  unfold CheckOctets
  split <;> rfl

@[simp] theorem CheckOctets_Routable (g : GeoIPData) (o : String) :
    (CheckOctets g o).Routable = g.Routable := by
  unfold CheckOctets
  split <;> rfl

@[simp] theorem initGeo_IP (ip : String) : (initGeo ip).IP = ip := rfl

@[simp] theorem initGeo_ISP (ip : String) : (initGeo ip).ISP = "-----" :=
  rfl

@[simp] theorem initGeo_Org (ip : String) : (initGeo ip).Org = "" := rfl

@[simp] theorem initGeo_Hostname (ip : String) :
    (initGeo ip).Hostname = "-----" := rfl

@[simp] theorem initGeo_City (ip : String) : (initGeo ip).City = "-----" :=
  rfl

@[simp] theorem initGeo_CountryCode (ip : String) :
    (initGeo ip).CountryCode = "--" := rfl

@[simp] theorem initGeo_CountryName (ip : String) :
    (initGeo ip).CountryName = "-----" := rfl

@[simp] theorem initGeo_Success (ip : String) :
    (initGeo ip).Success = false := rfl

@[simp] theorem initGeo_Error (ip : String) : (initGeo ip).Error = "" :=
  rfl

@[simp] theorem initGeo_Located (ip : String) :
    (initGeo ip).Located = false := rfl

@[simp] theorem initGeo_Routable (ip : String) :
    (initGeo ip).Routable = false := rfl

@[simp] theorem initGeo_Block (ip : String) : (initGeo ip).Block = false :=
  rfl

@[simp] theorem initGeo_CacheHit (ip : String) :
    (initGeo ip).CacheHit = false := rfl

@[simp] theorem CheckOctets_Block (g : GeoIPData) (o : String) :
    (CheckOctets g o).Block = g.Block := by
  unfold CheckOctets
  split <;> rfl

@[simp] theorem CheckOctets_CacheHit (g : GeoIPData) (o : String) :
    (CheckOctets g o).CacheHit = g.CacheHit := by
  unfold CheckOctets
  split <;> rfl

/-- C1 (code bug, failing input): for the three-octet address
`66.114.106`, `GetGeoData` reads the cache under the original caller
string `66.114.106` but writes the resolved record under the normalized
key `66.114.106.112`; consequently a repeated lookup of `66.114.106`
against the cache state left by the first lookup misses again and calls
the remote resolver a second time, contrary to the claim that read and
write use the same normalized key. -/
theorem C1_read_write_keys_differ :
    (GetGeoData "r" cacheEmpty remoteGoogle "66.114.106").cacheReadKey =
      some "66.114.106" ∧
    (GetGeoData "r" cacheEmpty remoteGoogle "66.114.106").cacheWriteKey =
      some "66.114.106.112" ∧
    (GetGeoData "r" ((GetGeoData "r" cacheEmpty remoteGoogle
        "66.114.106").cache) remoteGoogle "66.114.106").remoteCalled =
      true :=
  ⟨by decide, by decide, by decide⟩

/-- C2 (counterexample to the claim as stated): at the scenario
input of the spec itself, `192.168.106.5`, the record returned by `GetGeoData` has
`Success = false` — `isLocal` populates the descriptive fields but never
sets `Success`, so the claimed `success=true` is false. -/
theorem C2_local_success_false :
    (GetGeoData "r" cacheEmpty remoteNone "192.168.106.5").geo.Success =
      false := by
  decide

/-- C2 (amended): for every address with the local prefix `192.168.106.`,
`GetGeoData` returns the fixed home record (`isp="LaughingJ"`,
`city="Lewisville"`, `countryCode="US"`, `countryName="United States"`)
marked `Located = true` — but with `Success` left at its default `false` —
regardless of cache or remote state, without consulting the cache or the
remote resolver, and leaving the cache untouched. -/
theorem C2_local_record (redis0 : String) (cache : Cache) (remote : Remote)
    (ip : String) (h : strStartsWith ip "192.168.106." = true) :
    (GetGeoData redis0 cache remote ip).geo.ISP = "LaughingJ" ∧
    (GetGeoData redis0 cache remote ip).geo.City = "Lewisville" ∧
    (GetGeoData redis0 cache remote ip).geo.CountryCode = "US" ∧
    (GetGeoData redis0 cache remote ip).geo.CountryName =
      "United States" ∧
    (GetGeoData redis0 cache remote ip).geo.Located = true ∧
    (GetGeoData redis0 cache remote ip).geo.Success = false ∧
    (GetGeoData redis0 cache remote ip).cacheChecked = false ∧
    (GetGeoData redis0 cache remote ip).remoteCalled = false ∧
    (GetGeoData redis0 cache remote ip).cache = cache := by
  have hco := CheckOctets_local ip "112" h
  unfold GetGeoData
  rw [hco]
  simp [isLocal, initGeo, h]

/-- C2 (witness): the amended theorem applied at the scenario input
`192.168.106.5` with a concrete empty cache and failing remote. -/
theorem C2_local_record_witness :
    strStartsWith "192.168.106.5" "192.168.106." = true ∧
    ((GetGeoData "r" cacheEmpty remoteNone "192.168.106.5").geo.ISP =
        "LaughingJ" ∧
      (GetGeoData "r" cacheEmpty remoteNone "192.168.106.5").geo.City =
        "Lewisville" ∧
      (GetGeoData "r" cacheEmpty remoteNone
          "192.168.106.5").geo.CountryCode = "US" ∧
      (GetGeoData "r" cacheEmpty remoteNone
          "192.168.106.5").geo.CountryName = "United States" ∧
      (GetGeoData "r" cacheEmpty remoteNone "192.168.106.5").geo.Located =
        true ∧
      (GetGeoData "r" cacheEmpty remoteNone "192.168.106.5").geo.Success =
        false ∧
      (GetGeoData "r" cacheEmpty remoteNone "192.168.106.5").cacheChecked =
        false ∧
      (GetGeoData "r" cacheEmpty remoteNone "192.168.106.5").remoteCalled =
        false ∧
      (GetGeoData "r" cacheEmpty remoteNone "192.168.106.5").cache =
        cacheEmpty) :=
  ⟨by decide, C2_local_record "r" cacheEmpty remoteNone "192.168.106.5"
    (by decide)⟩

/-- C3: every address whose normalized form matches one of the RFC1918
prefixes but not the local prefix yields `Success = false` and
`Error = "Invalid public IPv4 or IPv6 address " ++` the normalized
address, with neither the cache nor the remote resolver consulted and the
cache left unchanged. -/
theorem C3_nonroutable (redis0 : String) (cache : Cache) (remote : Remote)
    (ip : String)
    (hl : strStartsWith (CheckOctets (initGeo ip) "112").IP
      "192.168.106." = false)
    (hn : nonRoutable.any
      (fun v => strStartsWith (CheckOctets (initGeo ip) "112").IP v) =
      true) :
    (GetGeoData redis0 cache remote ip).geo.Success = false ∧
    (GetGeoData redis0 cache remote ip).geo.Error =
      "Invalid public IPv4 or IPv6 address " ++
        (CheckOctets (initGeo ip) "112").IP ∧
    (GetGeoData redis0 cache remote ip).cacheChecked = false ∧
    (GetGeoData redis0 cache remote ip).remoteCalled = false ∧
    (GetGeoData redis0 cache remote ip).cache = cache := by
  unfold GetGeoData
  simp [isLocal, isNonRoutable, hl, hn]

/-- C3 (witness): the theorem applied at the scenario input of the spec,
`192.168.1.1`, whose error message names the address verbatim. -/
theorem C3_nonroutable_witness :
    ((GetGeoData "r" cacheEmpty remoteNone "192.168.1.1").geo.Success =
        false ∧
      (GetGeoData "r" cacheEmpty remoteNone "192.168.1.1").geo.Error =
        "Invalid public IPv4 or IPv6 address " ++
          (CheckOctets (initGeo "192.168.1.1") "112").IP ∧
      (GetGeoData "r" cacheEmpty remoteNone "192.168.1.1").cacheChecked =
        false ∧
      (GetGeoData "r" cacheEmpty remoteNone "192.168.1.1").remoteCalled =
        false ∧
      (GetGeoData "r" cacheEmpty remoteNone "192.168.1.1").cache =
        cacheEmpty) ∧
    "Invalid public IPv4 or IPv6 address " ++
      (CheckOctets (initGeo "192.168.1.1") "112").IP =
      "Invalid public IPv4 or IPv6 address 192.168.1.1" :=
  ⟨C3_nonroutable "r" cacheEmpty remoteNone "192.168.1.1" (by decide)
    (by decide), by decide⟩

/-- C4: the local check runs before the non-routable check and the first
match wins — every address with the local prefix (a subset of the
`192.168.` private range) gets the local record with its descriptive
fields populated and an empty error string, never the non-routable error
record. -/
theorem C4_local_before_nonroutable (redis0 : String) (cache : Cache)
    (remote : Remote) (ip : String)
    (h : strStartsWith ip "192.168.106." = true) :
    (GetGeoData redis0 cache remote ip).geo.ISP = "LaughingJ" ∧
    (GetGeoData redis0 cache remote ip).geo.City = "Lewisville" ∧
    (GetGeoData redis0 cache remote ip).geo.CountryCode = "US" ∧
    (GetGeoData redis0 cache remote ip).geo.CountryName =
      "United States" ∧
    (GetGeoData redis0 cache remote ip).geo.Located = true ∧
    (GetGeoData redis0 cache remote ip).geo.Error = "" := by
  have hco := CheckOctets_local ip "112" h
  unfold GetGeoData
  rw [hco]
  simp [isLocal, initGeo, h]

/-- C4 (witness): the theorem applied at `192.168.106.99`, an address
inside both the local prefix and the generic `192.168.` private range. -/
theorem C4_local_before_nonroutable_witness :
    strStartsWith "192.168.106.99" "192.168.106." = true ∧
    ((GetGeoData "r" cacheEmpty remoteNone "192.168.106.99").geo.ISP =
        "LaughingJ" ∧
      (GetGeoData "r" cacheEmpty remoteNone "192.168.106.99").geo.City =
        "Lewisville" ∧
      (GetGeoData "r" cacheEmpty remoteNone
          "192.168.106.99").geo.CountryCode = "US" ∧
      (GetGeoData "r" cacheEmpty remoteNone
          "192.168.106.99").geo.CountryName = "United States" ∧
      (GetGeoData "r" cacheEmpty remoteNone "192.168.106.99").geo.Located =
        true ∧
      (GetGeoData "r" cacheEmpty remoteNone "192.168.106.99").geo.Error =
        "") :=
  ⟨by decide, C4_local_before_nonroutable "r" cacheEmpty remoteNone
    "192.168.106.99" (by decide)⟩

/-- C5: the cache get never propagates a hard failure — a missing key, any
other retrieval error, and an unmarshal failure each yield `found = false`
with `Located` and `CacheHit` cleared; and when the cache does report a hit
whose record still carries the sentinel country code `--`, `GetGeoData`
invokes the remote resolver despite the hit. -/
theorem C5_cache_soft_and_sentinel :
    (∀ (g : GeoIPData) (cache : Cache) (ip : String),
      cache ip = .nilErr ∨ cache ip = .err ∨ cache ip = .ok .bad →
      (checkRedisCache g cache ip).2 = false ∧
      (checkRedisCache g cache ip).1.Located = false ∧
      (checkRedisCache g cache ip).1.CacheHit = false) ∧
    (∀ (redis0 : String) (cache : Cache) (remote : Remote) (ip : String),
      strStartsWith (CheckOctets (initGeo ip) "112").IP "192.168.106." =
        false →
      nonRoutable.any
        (fun v => strStartsWith (CheckOctets (initGeo ip) "112").IP v) =
        false →
      redis0 ≠ "" →
      (checkRedisCache (classifyStage ip) cache ip).2 = true →
      (checkRedisCache (classifyStage ip) cache ip).1.CountryCode = "--" →
      (GetGeoData redis0 cache remote ip).remoteCalled = true) := by
  constructor
  · intro g cache ip h
    unfold checkRedisCache
    rcases h with h | h | h <;> rw [h] <;> exact ⟨rfl, rfl, rfl⟩
  · intro redis0 cache remote ip hl hn hr hhit hcc
    unfold classifyStage at hhit hcc
    simp [isLocal, isNonRoutable, hl, hn] at hhit hcc
    unfold GetGeoData
    simp [isLocal, isNonRoutable, hl, hn, hr, hhit, hcc, resolveRemote]

/-- C5 (witness): the soft-failure half at an empty cache, and the
sentinel half at a cache holding a structurally valid record whose country
code is still `--`. -/
theorem C5_cache_soft_and_sentinel_witness :
    ((checkRedisCache (initGeo "1.2.3.4") cacheEmpty "1.2.3.4").2 = false ∧
      (checkRedisCache (initGeo "1.2.3.4") cacheEmpty
        "1.2.3.4").1.Located = false ∧
      (checkRedisCache (initGeo "1.2.3.4") cacheEmpty
        "1.2.3.4").1.CacheHit = false) ∧
    (GetGeoData "r" cacheSentinel remoteNone "8.8.8.8").remoteCalled =
      true :=
  ⟨C5_cache_soft_and_sentinel.1 (initGeo "1.2.3.4") cacheEmpty "1.2.3.4"
      (Or.inl rfl),
    C5_cache_soft_and_sentinel.2 "r" cacheSentinel remoteNone "8.8.8.8"
      (by decide) (by decide) (by decide) (by decide) (by decide)⟩

/-- C6 (counterexample to the claim as stated): on a transport failure of
the remote request, the error string of the returned record is empty —
`obtainGeoDat` logs and returns early without writing `g.Error`, so the
claimed "populated error string" is false. -/
theorem C6_transport_error_empty :
    (GetGeoData "r" cacheEmpty remoteNone "8.8.8.8").geo.Error = "" := by
  decide

/-- C6 (amended): on transport failure of the remote HTTP request (with
the cache missed or disabled), the lookup still returns a record to the
caller — with sentinel/default descriptive fields — rather than failing
the whole call, but the error string remains empty. -/
theorem C6_transport_returns_record (redis0 : String) (cache : Cache)
    (remote : Remote) (ip : String)
    (hl : strStartsWith (CheckOctets (initGeo ip) "112").IP
      "192.168.106." = false)
    (hn : nonRoutable.any
      (fun v => strStartsWith (CheckOctets (initGeo ip) "112").IP v) =
      false)
    (hm : redis0 = "" ∨ cache ip = .nilErr ∨ cache ip = .err ∨
      cache ip = .ok .bad)
    (ht : remote (CheckOctets (initGeo ip) "112").IP = .transportErr) :
    (GetGeoData redis0 cache remote ip).geo.ISP = "-----" ∧
    (GetGeoData redis0 cache remote ip).geo.Hostname = "-----" ∧
    (GetGeoData redis0 cache remote ip).geo.City = "-----" ∧
    (GetGeoData redis0 cache remote ip).geo.CountryCode = "--" ∧
    (GetGeoData redis0 cache remote ip).geo.CountryName = "-----" ∧
    (GetGeoData redis0 cache remote ip).geo.Error = "" ∧
    (GetGeoData redis0 cache remote ip).geo.Success = false ∧
    (GetGeoData redis0 cache remote ip).geo.Located = false := by
  unfold GetGeoData
  by_cases hr : redis0 = ""
  · simp [isLocal, isNonRoutable, hl, hn, hr, resolveRemote, obtainGeoDat,
      ht, add2RedisCache]
  · rcases hm with hm | hm | hm | hm
    · exact absurd hm hr
    all_goals
      simp [isLocal, isNonRoutable, hl, hn, hr, checkRedisCache, hm,
        resolveRemote, obtainGeoDat, ht, add2RedisCache]

/-- C6 (witness): the amended theorem applied at `8.8.8.8` with an empty
cache and a transport-failing remote. -/
theorem C6_transport_returns_record_witness :
    ((GetGeoData "r" cacheEmpty remoteNone "8.8.8.8").geo.ISP = "-----" ∧
      (GetGeoData "r" cacheEmpty remoteNone "8.8.8.8").geo.Hostname =
        "-----" ∧
      (GetGeoData "r" cacheEmpty remoteNone "8.8.8.8").geo.City =
        "-----" ∧
      (GetGeoData "r" cacheEmpty remoteNone "8.8.8.8").geo.CountryCode =
        "--" ∧
      (GetGeoData "r" cacheEmpty remoteNone "8.8.8.8").geo.CountryName =
        "-----" ∧
      (GetGeoData "r" cacheEmpty remoteNone "8.8.8.8").geo.Error = "" ∧
      (GetGeoData "r" cacheEmpty remoteNone "8.8.8.8").geo.Success =
        false ∧
      (GetGeoData "r" cacheEmpty remoteNone "8.8.8.8").geo.Located =
        false) :=
  C6_transport_returns_record "r" cacheEmpty remoteNone "8.8.8.8"
    (by decide) (by decide) (Or.inr (Or.inl rfl)) rfl

/-- C7 (counterexample to the claim as stated): a 200 response whose body
is malformed JSON still comes back with `Located = true` — the error of
`json.Unmarshal` is discarded and `g.Located = true` executes
unconditionally, so "not marked located on malformed JSON" is false. -/
theorem C7_malformed_still_located :
    ((obtainGeoDat (initGeo "8.8.8.8") remoteMalformed).1).Located =
      true := by
  decide

/-- C7 (amended): the remote resolver marks the record located
unconditionally once any HTTP response is received — malformed JSON
included, its deserialization error being ignored rather than surfaced —
while a transport failure returns the record unchanged (and so not marked
located). -/
theorem C7_located_unconditional :
    (∀ (g : GeoIPData) (remote : Remote) (r : HttpResp),
      remote g.IP = .resp r → ((obtainGeoDat g remote).1).Located = true) ∧
    (∀ (g : GeoIPData) (remote : Remote),
      remote g.IP = .transportErr → (obtainGeoDat g remote).1 = g) := by
  constructor
  · intro g remote r h
    unfold obtainGeoDat
    rw [h]
  · intro g remote h
    unfold obtainGeoDat
    rw [h]

/-- C7 (witness): both halves of the amended theorem at `8.8.8.8` — a
malformed 200 response yields `Located = true`; a transport failure leaves
the record untouched. -/
theorem C7_located_unconditional_witness :
    (remoteMalformed (initGeo "8.8.8.8").IP =
        .resp { status := "200 OK", readErrMsg := none,
                body := .malformed } ∧
      ((obtainGeoDat (initGeo "8.8.8.8") remoteMalformed).1).Located =
        true) ∧
    (remoteNone (initGeo "8.8.8.8").IP = .transportErr ∧
      (obtainGeoDat (initGeo "8.8.8.8") remoteNone).1 =
        initGeo "8.8.8.8") :=
  ⟨⟨rfl, C7_located_unconditional.1 (initGeo "8.8.8.8") remoteMalformed _
      rfl⟩,
    ⟨rfl, C7_located_unconditional.2 (initGeo "8.8.8.8") remoteNone rfl⟩⟩

theorem setField_ip (g : GeoIPData) (v : String) :
    setField g ("ip", .s v) = { g with IP := v } := rfl

theorem setField_isp (g : GeoIPData) (v : String) :
    setField g ("isp", .s v) = { g with ISP := v } := rfl

theorem setField_org (g : GeoIPData) (v : String) :
    setField g ("org", .s v) = { g with Org := v } := rfl

theorem setField_hostname (g : GeoIPData) (v : String) :
    setField g ("hostname", .s v) = { g with Hostname := v } := rfl

theorem setField_city (g : GeoIPData) (v : String) :
    setField g ("city", .s v) = { g with City := v } := rfl

theorem setField_cc (g : GeoIPData) (v : String) :
    setField g ("country_code", .s v) = { g with CountryCode := v } := rfl

theorem setField_cn (g : GeoIPData) (v : String) :
    setField g ("country_name", .s v) = { g with CountryName := v } := rfl

theorem setField_success (g : GeoIPData) (v : Bool) :
    setField g ("success", .b v) = { g with Success := v } := rfl

theorem setField_error (g : GeoIPData) (v : String) :
    setField g ("error", .s v) = { g with Error := v } := rfl

theorem setField_located (g : GeoIPData) (v : Bool) :
    setField g ("located", .b v) = { g with Located := v } := rfl

theorem setField_routable (g : GeoIPData) (v : Bool) :
    setField g ("routable", .b v) = { g with Routable := v } := rfl

theorem setField_block (g : GeoIPData) (v : Bool) :
    setField g ("block", .b v) = { g with Block := v } := rfl

theorem setField_cachehit (g : GeoIPData) (v : Bool) :
    setField g ("cache_hit", .b v) = { g with CacheHit := v } := rfl

/-- Unmarshaling a marshaled record into any starting record recovers the
marshaled record on every field: the marshaled field list overwrites all
thirteen fields. -/
theorem unmarshal_marshal (g g₀ : GeoIPData) :
    unmarshal (marshal g) g₀ = g := by
  simp only [unmarshal, marshal, List.foldl_cons, List.foldl_nil,
    setField_ip, setField_isp, setField_org, setField_hostname,
    setField_city, setField_cc, setField_cn, setField_success,
    setField_error, setField_located, setField_routable, setField_block,
    setField_cachehit]

/-- The cache get on a key holding a value that unmarshals merges the
stored fields and reports a hit. -/
theorem checkRedisCache_good (g : GeoIPData) (cache : Cache) (ip : String)
    (fs : List (String × JVal)) (h : cache ip = .ok (.good fs)) :
    checkRedisCache g cache ip =
      ({ unmarshal fs g with Located := true, CacheHit := true }, true) := by
  unfold checkRedisCache
  rw [h]

/-- On the routable path with Redis configured, `GetGeoData` is the cache
stage applied to the classified record: hit with a non-sentinel country
code returns it marked as a hit, anything else falls through to the
remote-and-store tail. -/
theorem GetGeoData_cache_branch (redis0 : String) (cache : Cache)
    (remote : Remote) (ip : String)
    (hl : strStartsWith (CheckOctets (initGeo ip) "112").IP
      "192.168.106." = false)
    (hn : nonRoutable.any
      (fun v => strStartsWith (CheckOctets (initGeo ip) "112").IP v) =
      false)
    (hr : redis0 ≠ "") :
    GetGeoData redis0 cache remote ip =
      (if (checkRedisCache (classifyStage ip) cache ip).2 &&
          ((checkRedisCache (classifyStage ip) cache
            ip).1.CountryCode != "--") then
        { geo := { (checkRedisCache (classifyStage ip) cache ip).1 with
            CacheHit := true }
          cache := cache
          cacheChecked := true
          remoteCalled := false
          cacheReadKey := some ip
          cacheWriteKey := none }
      else
        resolveRemote (checkRedisCache (classifyStage ip) cache ip).1
          cache remote true (some ip)) := by
  unfold GetGeoData classifyStage
  simp [isLocal, isNonRoutable, hl, hn, hr]

/-- C8: storing any record with the cache set operation and retrieving it
with get under the same key (the IP of the stored record) succeeds and returns
a record equal to the stored one on all descriptive fields — address, isp,
org, hostname, city, countryCode, countryName — whatever record the get
started from: serialization round-trips losslessly for the defined field
set. -/
theorem C8_roundtrip (g : GeoIPData) (cache : Cache) (m : Nat)
    (g₀ : GeoIPData) :
    (checkRedisCache g₀ (add2RedisCache g cache m).2
      ((add2RedisCache g cache m).1.IP)).2 = true ∧
    (checkRedisCache g₀ (add2RedisCache g cache m).2
      ((add2RedisCache g cache m).1.IP)).1.IP = g.IP ∧
    (checkRedisCache g₀ (add2RedisCache g cache m).2
      ((add2RedisCache g cache m).1.IP)).1.ISP = g.ISP ∧
    (checkRedisCache g₀ (add2RedisCache g cache m).2
      ((add2RedisCache g cache m).1.IP)).1.Org = g.Org ∧
    (checkRedisCache g₀ (add2RedisCache g cache m).2
      ((add2RedisCache g cache m).1.IP)).1.Hostname = g.Hostname ∧
    (checkRedisCache g₀ (add2RedisCache g cache m).2
      ((add2RedisCache g cache m).1.IP)).1.City = g.City ∧
    (checkRedisCache g₀ (add2RedisCache g cache m).2
      ((add2RedisCache g cache m).1.IP)).1.CountryCode = g.CountryCode ∧
    (checkRedisCache g₀ (add2RedisCache g cache m).2
      ((add2RedisCache g cache m).1.IP)).1.CountryName = g.CountryName := by
  have hset : (add2RedisCache g cache m).2
      ((add2RedisCache g cache m).1.IP) =
      .ok (.good (marshal { g with CacheHit := false })) := by
    simp [add2RedisCache, cacheSet]
  rw [checkRedisCache_good g₀ _ _ _ hset, unmarshal_marshal]
  exact ⟨rfl, rfl, rfl, rfl, rfl, rfl, rfl, rfl⟩

/-- C9 (implicit invariant): every record returned by `GetGeoData` with
`CacheHit = true` has a country code different from the sentinel `--`: the
sentinel check guards the only return path that sets `CacheHit = true`,
and the remote path returns the record after `add2RedisCache` forced
`CacheHit = false`. -/
theorem C9_cachehit_not_sentinel (redis0 : String) (cache : Cache)
    (remote : Remote) (ip : String)
    (h : (GetGeoData redis0 cache remote ip).geo.CacheHit = true) :
    (GetGeoData redis0 cache remote ip).geo.CountryCode ≠ "--" := by
  cases hl : strStartsWith (CheckOctets (initGeo ip) "112").IP
      "192.168.106." with
  | true =>
    unfold GetGeoData at h
    simp [isLocal, hl] at h
  | false =>
    cases hn : nonRoutable.any
        (fun v => strStartsWith (CheckOctets (initGeo ip) "112").IP v) with
    | true =>
      unfold GetGeoData at h
      simp [isLocal, isNonRoutable, hl, hn] at h
    | false =>
      by_cases hr : redis0 = ""
      · unfold GetGeoData at h
        simp [isLocal, isNonRoutable, hl, hn, hr, resolveRemote,
          add2RedisCache] at h
      · rw [GetGeoData_cache_branch redis0 cache remote ip hl hn hr]
          at h ⊢
        cases hc : (checkRedisCache (classifyStage ip) cache ip).2 &&
            ((checkRedisCache (classifyStage ip) cache
              ip).1.CountryCode != "--") with
        | true =>
          have hcc := (Bool.and_eq_true _ _ |>.mp hc).2
          rw [bne_iff_ne] at hcc
          simp only [hc, if_true]
          simpa using hcc
        | false =>
          rw [hc] at h
          simp [resolveRemote, add2RedisCache] at h

/-- C9 (witness): the invariant applied to a lookup of `8.8.8.8` against
the cache state left by a previous resolving lookup of `8.8.8.8`, whose
returned record has `CacheHit = true`. -/
theorem C9_cachehit_not_sentinel_witness :
    (GetGeoData "r"
      ((GetGeoData "r" cacheEmpty remoteGoogle "8.8.8.8").cache)
      remoteNone "8.8.8.8").geo.CountryCode ≠ "--" :=
  C9_cachehit_not_sentinel "r"
    ((GetGeoData "r" cacheEmpty remoteGoogle "8.8.8.8").cache)
    remoteNone "8.8.8.8" (by decide)

/-- C10 (implicit invariant): every snapshot persisted by the cache set
operation is serialized with `CacheHit = false` — `add2RedisCache` forces
the flag down before marshaling — so deserializing the stored snapshot
into any record yields `CacheHit = false`, and a true flag can only come
from the cache read of the current call. -/
theorem C10_snapshot_cachehit_false (g : GeoIPData) (cache : Cache)
    (m : Nat) (g₀ : GeoIPData) :
    (add2RedisCache g cache m).2 ((add2RedisCache g cache m).1.IP) =
      .ok (.good (marshal { g with CacheHit := false })) ∧
    (unmarshal (marshal { g with CacheHit := false }) g₀).CacheHit =
      false := by
  constructor
  · simp [add2RedisCache, cacheSet]
  · rfl

end MeGeolocate
